import Mathlib

/-!
Verification of the healthcare-migration pipeline (`scripts/migration.py`)
against its natural-language specification.

The script is a single linear function `migrate_data` that
1. opens a MongoDB connection (`client`, database `healthcare_db`,
   collection `patients`),
2. reads the CSV at the single hard-coded path
   `"../data/healthcare_dataset.csv"`,
3. logs validation diagnostics,
4. parses the two date columns and appends `created_at` / `updated_at`
   (two separate `datetime.utcnow()` calls per record),
5. runs `delete_many({})` then `insert_many(documents)`,
6. creates four ascending indexes,
7. runs the CRUD demonstration (reads, three updates, sentinel
   insert/delete, status delete, cleanup delete, final count),
8. closes the connection on the successful path only.

The embedding below models documents as association lists of field name to
scalar value, the collection as a list of documents in natural order, the
clock as a function from call index to instant (each `datetime.utcnow()`
call consumes the next index), the file system as a partial map from path
to parsed table, and the store's reported `inserted_ids` length as an
oracle parameter (the script only ever logs it).
-/

set_option autoImplicit false

namespace Migration

/-- Scalar values carried by a document field: raw strings, integers,
parsed dates (`pd.to_datetime` output) and clock instants
(`datetime.utcnow()` output). -/
inductive Value where
  | str (s : String)
  | int (n : Int)
  | date (n : Nat)
  | time (n : Nat)
deriving DecidableEq, Repr

/-- A MongoDB document / a row of the pandas DataFrame: an association
list of field name to value, in field order. -/
abbrev Doc := List (String × Value)

/-- Field lookup (`doc[key]` / Mongo field access): first binding wins. -/
def getField : Doc → String → Option Value
  | [], _ => none
  | (k, v) :: rest, key => if k = key then some v else getField rest key

/-- Mongo `$set` / pandas column assignment for a single field: replace
the existing binding in place, or append a new binding at the end. -/
def setField : Doc → String → Value → Doc
  | [], key, v => [(key, v)]
  | (k, w) :: rest, key, v =>
      if k = key then (key, v) :: rest else (k, w) :: setField rest key v

/-- The field names of a document, in order (the DataFrame's columns). -/
def keys (d : Doc) : List String := d.map Prod.fst

/-- `collection.count_documents(filter)`. -/
def countDocuments (p : Doc → Bool) (coll : List Doc) : Nat :=
  (coll.filter p).length

/-- `collection.delete_many(filter)`: removes every matching document,
returning the new collection and the `deleted_count`. -/
def deleteMany (p : Doc → Bool) (coll : List Doc) : List Doc × Nat :=
  (coll.filter (fun d => !(p d)), (coll.filter p).length)

/-- `collection.delete_one(filter)`: removes the first matching document
in natural order, returning the new collection and the `deleted_count`. -/
def deleteOne (p : Doc → Bool) : List Doc → List Doc × Nat
  | [] => ([], 0)
  | d :: rest =>
      if p d then (rest, 1)
      else
        let r := deleteOne p rest
        (d :: r.1, r.2)

/-- Apply a `$set` document (list of field/value pairs) to one document. -/
def applySet (sets : List (String × Value)) (d : Doc) : Doc :=
  sets.foldl (fun acc kv => setField acc kv.1 kv.2) d

/-- `collection.update_many(filter, {"$set": sets})`. -/
def updateMany (p : Doc → Bool) (sets : List (String × Value))
    (coll : List Doc) : List Doc :=
  coll.map (fun d => if p d then applySet sets d else d)

/-- `collection.update_one(filter, {"$set": sets})`: updates only the
first matching document in natural order. -/
def updateOne (p : Doc → Bool) (sets : List (String × Value)) :
    List Doc → List Doc
  | [] => []
  | d :: rest =>
      if p d then applySet sets d :: rest else d :: updateOne p sets rest

/-- `collection.insert_many(docs)`: pymongo raises
`InvalidOperation("documents must be a non-empty list")` on an empty
document list; otherwise the documents are appended in order and
`result.inserted_ids` has one id per document. -/
def insertMany (docs : List Doc) (coll : List Doc) :
    Except String (List Doc × Nat) :=
  if docs.isEmpty then .error "InvalidOperation: documents must be a non-empty list"
  else .ok (coll ++ docs, docs.length)

/-- Basic lemmas about the document operations. -/
theorem getField_setField_same (d : Doc) (key : String) (v : Value) :
    getField (setField d key v) key = some v := by
  induction d with
  | nil => simp [setField, getField]
  | cons hd tl ih =>
      obtain ⟨k, w⟩ := hd
      by_cases h : k = key <;> simp [setField, getField, h, ih]

theorem getField_setField_ne (d : Doc) (key key2 : String) (v : Value)
    (h : key ≠ key2) : getField (setField d key2 v) key = getField d key := by
  induction d with
  | nil => simp [setField, getField, Ne.symm h]
  | cons hd tl ih =>
      obtain ⟨k, w⟩ := hd
      by_cases hk : k = key2
      · subst hk
        simp [setField, getField, Ne.symm h]
      · by_cases hk2 : k = key <;> simp [setField, getField, hk, hk2, ih, h]

theorem keys_setField_of_mem (d : Doc) (key : String) (v w : Value)
    (h : getField d key = some w) : keys (setField d key v) = keys d := by
  induction d with
  | nil => simp [getField] at h
  | cons hd tl ih =>
      obtain ⟨k, u⟩ := hd
      by_cases hk : k = key
      · subst hk
        simp [setField, keys]
      · simp [getField, hk] at h
        simp [setField, keys, hk] at ih ⊢
        exact ih h

theorem keys_setField_of_none (d : Doc) (key : String) (v : Value)
    (h : getField d key = none) : keys (setField d key v) = keys d ++ [key] := by
  induction d with
  | nil => simp [setField, keys]
  | cons hd tl ih =>
      obtain ⟨k, u⟩ := hd
      by_cases hk : k = key
      · subst hk
        simp [getField] at h
      · simp [getField, hk] at h
        simp [setField, keys, hk] at ih ⊢
        exact ih h

theorem filter_length_partition (p : Doc → Bool) (coll : List Doc) :
    (coll.filter (fun d => !(p d))).length + (coll.filter p).length = coll.length := by
  induction coll with
  | nil => simp
  | cons d rest ih =>
      by_cases h : p d <;> simp [List.filter_cons, h] <;> omega

theorem deleteMany_length (p : Doc → Bool) (coll : List Doc) :
    (deleteMany p coll).1.length + (deleteMany p coll).2 = coll.length := by
  simpa [deleteMany] using filter_length_partition p coll

theorem deleteMany_all (coll : List Doc) :
    deleteMany (fun _ => true) coll = ([], coll.length) := by
  simp [deleteMany]

theorem deleteOne_of_forall_not (p : Doc → Bool) (coll : List Doc)
    (h : ∀ d ∈ coll, p d = false) : deleteOne p coll = (coll, 0) := by
  induction coll with
  | nil => rfl
  | cons d rest ih =>
      have hd : p d = false := h d (by simp)
      have := ih (fun x hx => h x (by simp [hx]))
      simp [deleteOne, hd, this]

theorem deleteOne_append_of_forall_not (p : Doc → Bool) (c1 c2 : List Doc)
    (h : ∀ d ∈ c1, p d = false) :
    deleteOne p (c1 ++ c2) = (c1 ++ (deleteOne p c2).1, (deleteOne p c2).2) := by
  induction c1 with
  | nil => simp
  | cons d rest ih =>
      have hd : p d = false := h d (by simp)
      have := ih (fun x hx => h x (by simp [hx]))
      simp [deleteOne, hd, this]

theorem deleteOne_length_of_exists (p : Doc → Bool) (coll : List Doc)
    (h : ∃ d ∈ coll, p d = true) :
    (deleteOne p coll).1.length + 1 = coll.length ∧ (deleteOne p coll).2 = 1 := by
  induction coll with
  | nil => simp at h
  | cons d rest ih =>
      by_cases hd : p d
      · simp [deleteOne, hd]
      · have hrest : ∃ x ∈ rest, p x = true := by
          rcases h with ⟨x, hx, hpx⟩
          rcases List.mem_cons.mp hx with rfl | hx2
          · exact absurd hpx (by simp [hd])
          · exact ⟨x, hx2, hpx⟩
        obtain ⟨h1, h2⟩ := ih hrest
        refine ⟨?_, ?_⟩ <;> simp [deleteOne, hd, h2]
        omega

theorem length_updateMany (p : Doc → Bool) (sets : List (String × Value))
    (coll : List Doc) : (updateMany p sets coll).length = coll.length := by
  simp [updateMany]

theorem length_updateOne (p : Doc → Bool) (sets : List (String × Value))
    (coll : List Doc) : (updateOne p sets coll).length = coll.length := by
  induction coll with
  | nil => rfl
  | cons d rest ih =>
      by_cases h : p d <;> simp [updateOne, h, ih]

theorem countDocuments_true (coll : List Doc) :
    countDocuments (fun _ => true) coll = coll.length := by
  simp [countDocuments]

/-! ## Loader (step 2) -/

/-- The single hard-coded CSV path of the script
(`pd.read_csv("../data/healthcare_dataset.csv")`, line 100). -/
def csvPath : String := "../data/healthcare_dataset.csv"

/-- `pd.read_csv` at the script's single path: the file system is a
partial map from path to parsed table; a missing file raises
`FileNotFoundError`. -/
def loadCsv (fs : String → Option (List Doc)) : Except String (List Doc) :=
  match fs csvPath with
  | none => .error "FileNotFoundError"
  | some df => .ok df

/-- Modelled from the spec: the path-resolution policy of section 4.2
(prefer an explicit environment-style override, else the local relative
path, else a secondary container-style relative path, and a
`FileNotFoundError`-kind failure only when none resolve). This policy is
absent from the source, which reads one fixed path; the definition exists
only to compare the spec's described loader with the code's. -/
def resolvePathSpec (override : Option String)
    (fs : String → Option (List Doc)) : Except String (List Doc) :=
  match override with
  | some p =>
      match fs p with
      | some df => .ok df
      | none => .error "FileNotFoundError"
  | none =>
      match fs csvPath with
      | some df => .ok df
      | none =>
          match fs "data/healthcare_dataset.csv" with
          | some df => .ok df
          | none => .error "FileNotFoundError"

/-! ## Transformer (step 4) -/

/-- `pd.to_datetime` on one cell: a raw string parses through the date
parser (`parse`), an already-parsed date passes through, anything else is
unparseable. -/
def parseValue (parse : String → Option Nat) : Value → Option Value
  | .str s => (parse s).map Value.date
  | .date n => some (.date n)
  | _ => none

/-- One row of the date-column conversion
(`df[col] = pd.to_datetime(df[col])`): a missing column is a `KeyError`,
an unparseable cell a `ParserError`; otherwise the cell is replaced in
place by the parsed date. -/
def parseDoc (parse : String → Option Nat) (col : String) (d : Doc) :
    Except String Doc :=
  match getField d col with
  | none => .error ("KeyError: " ++ col)
  | some v =>
      match parseValue parse v with
      | none => .error ("ParserError: " ++ col)
      | some w => .ok (setField d col w)

/-- The whole-column conversion, row by row; any failing cell aborts the
conversion (no partial-row skipping). -/
def parseCol (parse : String → Option Nat) (col : String) :
    List Doc → Except String (List Doc)
  | [] => .ok []
  | d :: rest =>
      match parseDoc parse col d with
      | .error e => .error e
      | .ok d2 =>
          match parseCol parse col rest with
          | .error e => .error e
          | .ok rest2 => .ok (d2 :: rest2)

/-- The timestamp loop (lines 149-151): for each document in order, one
`datetime.utcnow()` call for `created_at` and a second, separate call for
`updated_at`. `clock` maps the index of a `utcnow()` call to the instant
it returns; the document at position `i` consumes calls `k + 2*i` and
`k + 2*i + 1`. -/
def addTimestamps (clock : Nat → Nat) : Nat → List Doc → List Doc
  | _, [] => []
  | k, d :: rest =>
      setField (setField d "created_at" (.time (clock k)))
          "updated_at" (.time (clock (k + 1)))
        :: addTimestamps clock (k + 2) rest

/-- The Transformer (step 4 of the script): parse the two date columns,
convert to records, append the two timestamp fields. -/
def transform (parse : String → Option Nat) (clock : Nat → Nat)
    (df : List Doc) : Except String (List Doc) :=
  match parseCol parse "Date of Admission" df with
  | .error e => .error e
  | .ok d1 =>
      match parseCol parse "Discharge Date" d1 with
      | .error e => .error e
      | .ok d2 => .ok (addTimestamps clock 0 d2)

/-! ## Loader-Writer (steps 5 and 6) -/

/-- Steps 5 and 6 of the script: `collection.delete_many({})` then
`collection.insert_many(documents)`, in that order. Returns the resulting
collection together with the outcome of the insert. -/
def loaderWriter (docs : List Doc) (coll : List Doc) :
    List Doc × Except String Nat :=
  let cleared := (deleteMany (fun _ => true) coll).1
  match insertMany docs cleared with
  | .error e => (cleared, .error e)
  | .ok (c, n) => (c, .ok n)

/-! ## Verifier/Demo (steps 8 and 9) -/

/-- Python `str(value)`, as used by the f-string that rewrites the
hospital name. Only the string case matters to the script's data (the
`Hospital` column is textual); the other renderings are an abstraction of
Python's `str`. -/
def render : Value → String
  | .str s => s
  | .int n => toString n
  | .date n => "date " ++ toString n
  | .time n => "time " ++ toString n

/-- Case-insensitive ASCII prefix test over character lists: does the
lower-case pattern match a prefix of the subject, ignoring the subject's
case? (Structural-recursion replacement for a prefix regex match.) -/
def isPrefixCI : List Char → List Char → Bool
  | [], _ => true
  | _ :: _, [] => false
  | a :: as, b :: bs => (a == b.toLower) && isPrefixCI as bs

/-- The filter `{"Name": {"$regex": "^Bobby", "$options": "i"}}`: the
`Name` field is a string that starts, case-insensitively, with `Bobby`. -/
def bobbyMatch (d : Doc) : Bool :=
  match getField d "Name" with
  | some (.str s) => isPrefixCI "bobby".data s.data
  | _ => false

/-- The filter `{"Medical Condition": "Diabetes"}`. -/
def diabetesMatch (d : Doc) : Bool :=
  getField d "Medical Condition" == some (.str "Diabetes")

/-- Name of the synthetic sentinel record of the demo Delete step. -/
def sentinelName : String := "Test Patient TO DELETE"

/-- The filter `{"Name": "Test Patient TO DELETE"}` (exact match). -/
def sentinelMatch (d : Doc) : Bool :=
  getField d "Name" == some (.str sentinelName)

/-- The filter `{"status": "Nécessite suivi régulier"}`. -/
def statusMatch (d : Doc) : Bool :=
  getField d "status" == some (.str "Nécessite suivi régulier")

/-- The cleanup filter
`{"$or": [{"Name": {"$exists": False}}, {"Age": {"$exists": False}}]}`. -/
def cleanupMatch (d : Doc) : Bool :=
  (getField d "Name").isNone || (getField d "Age").isNone

/-- The synthetic sentinel record (lines 312-320); its two timestamp
fields come from two further `utcnow()` calls `k` and `k + 1`. -/
def testPatient (clock : Nat → Nat) (k : Nat) : Doc :=
  [("Name", .str sentinelName), ("Age", .int 99), ("Gender", .str "Male"),
   ("Medical Condition", .str "Test"), ("Hospital", .str "Test Hospital"),
   ("created_at", .time (clock k)), ("updated_at", .time (clock (k + 1)))]

/-- The demo Delete example 1 (lines 312-324): `insert_one` the sentinel,
then `delete_one` by exact name match; returns the new collection and the
`deleted_count`. -/
def sentinelStep (clock : Nat → Nat) (k : Nat) (coll : List Doc) :
    List Doc × Nat :=
  deleteOne sentinelMatch (coll ++ [testPatient clock k])

/-- The demo Update example 2 (lines 280-288): for every document of the
discovered hospital, `$set` rewrites `Hospital` to
`f"{hospital_name} (Nom mis à jour)"` and refreshes `updated_at`. -/
def hospitalUpdate (hname : Value) (t : Nat) (coll : List Doc) : List Doc :=
  updateMany (fun d => getField d "Hospital" == some hname)
    [("Hospital", .str (render hname ++ " (Nom mis à jour)")),
     ("updated_at", .time t)] coll

/-- Output of the demo stage: final collection, the three delete counts,
and the final `count_documents({})`. -/
structure DemoOut where
  coll : List Doc
  sentinelDeleted : Nat
  statusDeleted : Nat
  cleanupDeleted : Nat
  finalCount : Nat
deriving Repr, DecidableEq

/-- The three demo updates (lines 267-301), in source order: the
name-prefix `update_one` (which overwrites `Admission Type`), the
hospital `update_many`, and the diabetes `update_many` that adds the
temporary `status` field. `k` is the index of the next `utcnow()` call;
`hname` the discovered hospital value. -/
def demoUpdates (clock : Nat → Nat) (k : Nat) (coll : List Doc)
    (hname : Value) : List Doc :=
  updateMany diabetesMatch
    [("status", .str "Nécessite suivi régulier"),
     ("updated_at", .time (clock (k + 2)))]
    (hospitalUpdate hname (clock (k + 1))
      (updateOne bobbyMatch
        [("Admission Type", .str "Elective (Updated)"),
         ("updated_at", .time (clock k))] coll))

/-- The mutating part of the demo (all demo aborts occur before the first
update, so this part runs exactly when the checks pass): the three
updates, the sentinel insert/delete, the status delete, the cleanup
delete, and the final count. -/
def demoCore (clock : Nat → Nat) (k : Nat) (coll : List Doc)
    (hname : Value) : DemoOut :=
  let c3 := demoUpdates clock k coll hname
  let r1 := sentinelStep clock (k + 3) c3
  let r2 := deleteMany statusMatch r1.1
  let r3 := deleteMany cleanupMatch r2.1
  { coll := r3.1, sentinelDeleted := r1.2, statusDeleted := r2.2,
    cleanupDeleted := r3.2, finalCount := countDocuments (fun _ => true) r3.1 }

/-- Steps 8 and 9 of the script. The abort paths (`None` here) are the
`KeyError`/`TypeError` exits that the script can take before its first
update: `sample['Name']`/`sample['Age']` on the first document (lines
225-226), `patient['Medical Condition']` on a name-prefix hit (line 250),
and `first_hospital['Hospital']` (line 255). All of them precede every
demo write, so an aborted demo leaves the collection as it received it. -/
def demoStage (clock : Nat → Nat) (k : Nat) (coll : List Doc) :
    Option DemoOut :=
  match coll.head? with
  | none => none
  | some s =>
      if (getField s "Name").isSome && (getField s "Age").isSome then
        if (match List.find? bobbyMatch coll with
            | none => true
            | some p => (getField p "Medical Condition").isSome) then
          match getField s "Hospital" with
          | none => none
          | some hname => some (demoCore clock k coll hname)
        else none
      else none

/-! ## The whole pipeline -/

/-- Observable outcome of one invocation of `migrate_data`. -/
structure RunResult where
  finalColl : List Doc
  insertedCount : Nat
  reportedInserted : Nat
  sentinelDeleted : Nat
  statusDeleted : Nat
  cleanupDeleted : Nat
  finalCount : Nat
  completed : Bool
  closed : Bool
deriving Repr, DecidableEq

/-- Outcome of a run aborted by an uncaught exception: the collection is
whatever it was at the abort point, nothing later runs, and in particular
`client.close()` (which the script only reaches at the very end) does not
run. -/
def abortedRun (coll : List Doc) : RunResult :=
  { finalColl := coll, insertedCount := 0, reportedInserted := 0,
    sentinelDeleted := 0, statusDeleted := 0, cleanupDeleted := 0,
    finalCount := 0, completed := false, closed := false }

/-- The whole `migrate_data` function. Parameters model the external
collaborators: `parse` the date parser behind `pd.to_datetime`, `clock`
the successive values returned by `datetime.utcnow()`, `fs` the file
system seen by `pd.read_csv`, `report` the length of
`result.inserted_ids` as reported by the store for a successful bulk
insert (the script only logs it), and `initColl` the prior contents of
the `patients` collection. Index creation (step 7) does not change the
collection's documents and is not modelled beyond that. -/
def migrate_data (parse : String → Option Nat) (clock : Nat → Nat)
    (fs : String → Option (List Doc)) (report : List Doc → Nat)
    (initColl : List Doc) : RunResult :=
  match loadCsv fs with
  | .error _ => abortedRun initColl
  | .ok df =>
      match transform parse clock df with
      | .error _ => abortedRun initColl
      | .ok documents =>
          match loaderWriter documents initColl with
          | (coll1, .error _) => abortedRun coll1
          | (coll1, .ok _) =>
              let reported := report documents
              match demoStage clock (2 * documents.length) coll1 with
              | none =>
                  { abortedRun coll1 with
                      insertedCount := countDocuments (fun _ => true) coll1,
                      reportedInserted := reported }
              | some out =>
                  { finalColl := out.coll,
                    insertedCount := countDocuments (fun _ => true) coll1,
                    reportedInserted := reported,
                    sentinelDeleted := out.sentinelDeleted,
                    statusDeleted := out.statusDeleted,
                    cleanupDeleted := out.cleanupDeleted,
                    finalCount := out.finalCount,
                    completed := true, closed := true }

/-! ## Concrete example inputs used by counterexamples and witnesses -/

/-- A well-formed source row (all required columns, diabetic patient). -/
def goodRow1 : Doc :=
  [("Name", .str "Alice Smith"), ("Age", .int 30),
   ("Hospital", .str "General"), ("Medical Condition", .str "Diabetes"),
   ("Date of Admission", .str "2024-01-15"),
   ("Discharge Date", .str "2024-02-01")]

/-- A second well-formed source row (non-diabetic patient). -/
def goodRow2 : Doc :=
  [("Name", .str "Carl Jones"), ("Age", .int 41),
   ("Hospital", .str "General"), ("Medical Condition", .str "Cancer"),
   ("Date of Admission", .str "2024-03-10"),
   ("Discharge Date", .str "2024-03-20")]

/-- A two-row well-formed source table. -/
def goodTable : List Doc := [goodRow1, goodRow2]

/-- A file system holding the well-formed table at the script's path. -/
def goodFs : String → Option (List Doc) :=
  fun p => if p = csvPath then some goodTable else none

/-- A concrete, total date parser (the parsed key is irrelevant to every
claim; only date-typedness matters). -/
def natParse : String → Option Nat := fun s => some s.length

/-- A clock that advances by one at every `utcnow()` call. -/
def tickClock : Nat → Nat := fun k => k

/-- `goodTable` as produced by the Transformer under `natParse` (both
date strings have length 10) and `tickClock`. -/
def goodDocs : List Doc :=
  [[("Name", .str "Alice Smith"), ("Age", .int 30),
    ("Hospital", .str "General"), ("Medical Condition", .str "Diabetes"),
    ("Date of Admission", .date 10), ("Discharge Date", .date 10),
    ("created_at", .time 0), ("updated_at", .time 1)],
   [("Name", .str "Carl Jones"), ("Age", .int 41),
    ("Hospital", .str "General"), ("Medical Condition", .str "Cancer"),
    ("Date of Admission", .date 10), ("Discharge Date", .date 10),
    ("created_at", .time 2), ("updated_at", .time 3)]]

/-- Whether an optional field value holds a parsed date (and not, in
particular, a raw string). -/
def isDateValue : Option Value → Bool
  | some (.date _) => true
  | _ => false

/-! ## Lemmas about the Transformer -/

theorem parseValue_date (parse : String → Option Nat) (v w : Value)
    (h : parseValue parse v = some w) : ∃ n, w = Value.date n := by
  cases v with
  | str s =>
      simp [parseValue] at h
      obtain ⟨n, _, hn⟩ := h
      exact ⟨n, hn.symm⟩
  | int n => simp [parseValue] at h
  | date n =>
      simp [parseValue] at h
      exact ⟨n, h.symm⟩
  | time n => simp [parseValue] at h

theorem parseDoc_ok_keys (parse : String → Option Nat) (col : String)
    (d d2 : Doc) (h : parseDoc parse col d = .ok d2) : keys d2 = keys d := by
  unfold parseDoc at h
  cases hg : getField d col with
  | none => simp only [hg] at h; simp at h
  | some v =>
      simp only [hg] at h
      cases hp : parseValue parse v with
      | none => simp only [hp] at h; simp at h
      | some w =>
          simp only [hp] at h
          simp at h
          rw [← h]
          exact keys_setField_of_mem d col w v hg

theorem parseDoc_ok_col (parse : String → Option Nat) (col : String)
    (d d2 : Doc) (h : parseDoc parse col d = .ok d2) :
    ∃ n, getField d2 col = some (Value.date n) := by
  unfold parseDoc at h
  cases hg : getField d col with
  | none => simp only [hg] at h; simp at h
  | some v =>
      simp only [hg] at h
      cases hp : parseValue parse v with
      | none => simp only [hp] at h; simp at h
      | some w =>
          simp only [hp] at h
          simp at h
          obtain ⟨n, hn⟩ := parseValue_date parse v w hp
          subst hn
          rw [← h]
          exact ⟨n, getField_setField_same d col _⟩

theorem parseDoc_ok_other (parse : String → Option Nat) (col : String)
    (d d2 : Doc) (key : String) (hne : key ≠ col)
    (h : parseDoc parse col d = .ok d2) :
    getField d2 key = getField d key := by
  unfold parseDoc at h
  cases hg : getField d col with
  | none => simp only [hg] at h; simp at h
  | some v =>
      simp only [hg] at h
      cases hp : parseValue parse v with
      | none => simp only [hp] at h; simp at h
      | some w =>
          simp only [hp] at h
          simp at h
          rw [← h]
          exact getField_setField_ne d key col w hne

theorem parseCol_ok_length (parse : String → Option Nat) (col : String)
    (ds out : List Doc) (h : parseCol parse col ds = .ok out) :
    out.length = ds.length := by
  induction ds generalizing out with
  | nil =>
      simp [parseCol] at h
      simp [← h]
  | cons d rest ih =>
      unfold parseCol at h
      cases hp : parseDoc parse col d with
      | error e => simp only [hp] at h; simp at h
      | ok d2 =>
          simp only [hp] at h
          cases hr : parseCol parse col rest with
          | error e => simp only [hr] at h; simp at h
          | ok rest2 =>
              simp only [hr] at h
              simp at h
              rw [← h]
              simp [ih rest2 hr]

theorem parseCol_ok_mem (parse : String → Option Nat) (col : String)
    (ds out : List Doc) (h : parseCol parse col ds = .ok out)
    (d2 : Doc) (hmem : d2 ∈ out) :
    ∃ d ∈ ds, parseDoc parse col d = .ok d2 := by
  induction ds generalizing out with
  | nil =>
      simp [parseCol] at h
      subst h
      simp at hmem
  | cons d rest ih =>
      unfold parseCol at h
      cases hp : parseDoc parse col d with
      | error e => simp only [hp] at h; simp at h
      | ok dd =>
          simp only [hp] at h
          cases hr : parseCol parse col rest with
          | error e => simp only [hr] at h; simp at h
          | ok rest2 =>
              simp only [hr] at h
              simp at h
              rw [← h] at hmem
              rcases List.mem_cons.mp hmem with heq | hmem2
              · exact ⟨d, by simp, by rw [hp, heq]⟩
              · obtain ⟨d0, hd0, hok⟩ := ih rest2 hr hmem2
                exact ⟨d0, by simp [hd0], hok⟩

theorem addTimestamps_length (clock : Nat → Nat) (k : Nat) (ds : List Doc) :
    (addTimestamps clock k ds).length = ds.length := by
  induction ds generalizing k with
  | nil => rfl
  | cons d rest ih => simp [addTimestamps, ih]

theorem addTimestamps_mem (clock : Nat → Nat) (k : Nat) (ds : List Doc)
    (d2 : Doc) (h : d2 ∈ addTimestamps clock k ds) :
    ∃ d ∈ ds, ∃ a b : Value,
      d2 = setField (setField d "created_at" a) "updated_at" b := by
  induction ds generalizing k with
  | nil => simp [addTimestamps] at h
  | cons d rest ih =>
      simp only [addTimestamps, List.mem_cons] at h
      rcases h with heq | hmem
      · exact ⟨d, by simp, _, _, heq⟩
      · obtain ⟨d0, hd0, a, b, hab⟩ := ih (k + 2) hmem
        exact ⟨d0, by simp [hd0], a, b, hab⟩

theorem transform_ok_length (parse : String → Option Nat)
    (clock : Nat → Nat) (df out : List Doc)
    (h : transform parse clock df = .ok out) : out.length = df.length := by
  unfold transform at h
  cases h1 : parseCol parse "Date of Admission" df with
  | error e => simp only [h1] at h; simp at h
  | ok d1 =>
      simp only [h1] at h
      cases h2 : parseCol parse "Discharge Date" d1 with
      | error e => simp only [h2] at h; simp at h
      | ok d2 =>
          simp only [h2] at h
          simp at h
          rw [← h, addTimestamps_length, parseCol_ok_length _ _ _ _ h2,
            parseCol_ok_length _ _ _ _ h1]

theorem transform_ok_mem (parse : String → Option Nat) (clock : Nat → Nat)
    (df out : List Doc) (h : transform parse clock df = .ok out)
    (d2 : Doc) (hmem : d2 ∈ out) :
    ∃ d ∈ df, ∃ da db : Doc, ∃ a b : Value,
      parseDoc parse "Date of Admission" d = .ok da
      ∧ parseDoc parse "Discharge Date" da = .ok db
      ∧ d2 = setField (setField db "created_at" a) "updated_at" b := by
  unfold transform at h
  cases h1 : parseCol parse "Date of Admission" df with
  | error e => simp only [h1] at h; simp at h
  | ok d1 =>
      simp only [h1] at h
      cases h2 : parseCol parse "Discharge Date" d1 with
      | error e => simp only [h2] at h; simp at h
      | ok dd2 =>
          simp only [h2] at h
          simp at h
          rw [← h] at hmem
          obtain ⟨db, hdb, a, b, hab⟩ := addTimestamps_mem clock 0 dd2 d2 hmem
          obtain ⟨da, hda, hok2⟩ := parseCol_ok_mem _ _ _ _ h2 db hdb
          obtain ⟨d0, hd0, hok1⟩ := parseCol_ok_mem _ _ _ _ h1 da hda
          exact ⟨d0, hd0, da, db, a, b, hok1, hok2, hab⟩

/-! ## Claims -/

/-! ## Lemmas about the Verifier/Demo stage -/

theorem sentinelMatch_testPatient (clock : Nat → Nat) (k : Nat) :
    sentinelMatch (testPatient clock k) = true := by
  simp [sentinelMatch, testPatient, getField]

theorem sentinelStep_length (clock : Nat → Nat) (k : Nat) (c : List Doc) :
    (sentinelStep clock k c).1.length = c.length
    ∧ (sentinelStep clock k c).2 = 1 := by
  have hex : ∃ d ∈ c ++ [testPatient clock k], sentinelMatch d = true :=
    ⟨testPatient clock k, by simp, sentinelMatch_testPatient clock k⟩
  obtain ⟨h1, h2⟩ := deleteOne_length_of_exists sentinelMatch _ hex
  unfold sentinelStep
  refine ⟨?_, h2⟩
  have : (c ++ [testPatient clock k]).length = c.length + 1 := by simp
  omega

theorem length_hospitalUpdate (hname : Value) (t : Nat) (coll : List Doc) :
    (hospitalUpdate hname t coll).length = coll.length := by
  simp [hospitalUpdate, length_updateMany]

theorem length_demoUpdates (clock : Nat → Nat) (k : Nat) (coll : List Doc)
    (hname : Value) : (demoUpdates clock k coll hname).length = coll.length := by
  simp [demoUpdates, length_updateMany, length_hospitalUpdate, length_updateOne]

theorem demoCore_counts (clock : Nat → Nat) (k : Nat) (coll : List Doc)
    (hname : Value) :
    (demoCore clock k coll hname).finalCount
      + (demoCore clock k coll hname).statusDeleted
      + (demoCore clock k coll hname).cleanupDeleted = coll.length
    ∧ (demoCore clock k coll hname).sentinelDeleted = 1 := by
  unfold demoCore
  simp only [countDocuments_true]
  obtain ⟨hs1, hs2⟩ := sentinelStep_length clock (k + 3) (demoUpdates clock k coll hname)
  have h2 := deleteMany_length statusMatch
    (sentinelStep clock (k + 3) (demoUpdates clock k coll hname)).1
  have h3 := deleteMany_length cleanupMatch
    (deleteMany statusMatch
      (sentinelStep clock (k + 3) (demoUpdates clock k coll hname)).1).1
  have h4 := length_demoUpdates clock k coll hname
  exact ⟨by omega, hs2⟩

theorem demoStage_some (clock : Nat → Nat) (k : Nat) (coll : List Doc)
    (out : DemoOut) (h : demoStage clock k coll = some out) :
    ∃ hname, out = demoCore clock k coll hname := by
  unfold demoStage at h
  split at h
  · exact absurd h (by simp)
  · split at h
    · split at h
      · split at h
        · exact absurd h (by simp)
        · exact ⟨_, (Option.some.inj h).symm⟩
      · exact absurd h (by simp)
    · exact absurd h (by simp)

/-- C2. The Loader-Writer unconditionally deletes all existing documents
and only then bulk-inserts the transformed records: whatever the target
collection held before, the collection immediately after the bulk insert
is exactly the transformed record sequence, and its document count equals
the number of rows of the source table. -/
theorem loaderWriter_full_replace (parse : String → Option Nat)
    (clock : Nat → Nat) (df docs coll : List Doc)
    (hok : transform parse clock df = .ok docs) :
    (loaderWriter docs coll).1 = docs
    ∧ countDocuments (fun _ => true) (loaderWriter docs coll).1 = df.length := by
  have hfst : (loaderWriter docs coll).1 = docs := by
    unfold loaderWriter insertMany
    rw [deleteMany_all]
    cases docs with
    | nil => simp
    | cons d rest => simp
  refine ⟨hfst, ?_⟩
  rw [hfst, countDocuments_true]
  exact transform_ok_length parse clock df docs hok

/-- Witness for C2 at a concrete input: the two-row table `goodTable`
transforms to `goodDocs`, and the Loader-Writer replaces a non-empty
prior collection with exactly those two documents. -/
theorem loaderWriter_full_replace_witness :
    transform natParse tickClock goodTable = .ok goodDocs
    ∧ (loaderWriter goodDocs [goodRow1]).1 = goodDocs
    ∧ countDocuments (fun _ => true) (loaderWriter goodDocs [goodRow1]).1
        = goodTable.length :=
  ⟨rfl,
   (loaderWriter_full_replace natParse tickClock goodTable goodDocs [goodRow1] rfl).1,
   (loaderWriter_full_replace natParse tickClock goodTable goodDocs [goodRow1] rfl).2⟩

/-- C3 (code bug). The script computes `created_at` and `updated_at` from
two separate `datetime.utcnow()` calls (lines 150 and 151), so whenever
the clock advances between the two calls the two fields differ, although
the claim — and the script's own comment, "même valeur au début" — say
they hold the same instant. Under the advancing clock `tickClock`, the
single row `goodRow1` is transformed into a document whose `created_at`
is instant 0 and whose `updated_at` is instant 1. The per-record capture
(rather than one shared batch value) does hold: the record at position
`i` consumes clock calls `2*i` and `2*i + 1`. -/
theorem created_at_ne_updated_at_under_advancing_clock :
    (transform natParse tickClock [goodRow1]).map
        (fun out => out.map (fun d => (getField d "created_at", getField d "updated_at")))
      = .ok [(some (Value.time 0), some (Value.time 1))]
    ∧ (some (Value.time 0) : Option Value) ≠ some (Value.time 1) :=
  ⟨rfl, by decide⟩

/-- C4. Every record produced by the Transformer has exactly the source
row's columns plus `created_at` and `updated_at` (appended in that
order), and its `Date of Admission` and `Discharge Date` fields hold
parsed dates, never raw strings. The hypothesis `hclean` records that the
source rows do not already carry the two synthesized columns (true of the
source CSV's column set). -/
theorem transform_exact_columns (parse : String → Option Nat)
    (clock : Nat → Nat) (df out : List Doc) (d2 : Doc)
    (hok : transform parse clock df = .ok out)
    (hclean : ∀ d ∈ df, getField d "created_at" = none
      ∧ getField d "updated_at" = none)
    (hmem : d2 ∈ out) :
    (∃ d ∈ df, keys d2 = keys d ++ ["created_at", "updated_at"])
    ∧ isDateValue (getField d2 "Date of Admission") = true
    ∧ isDateValue (getField d2 "Discharge Date") = true := by
  obtain ⟨d0, hd0, da, db, a, b, hok1, hok2, hab⟩ :=
    transform_ok_mem parse clock df out hok d2 hmem
  have hca : getField db "created_at" = none := by
    rw [parseDoc_ok_other parse _ da db "created_at" (by decide) hok2,
      parseDoc_ok_other parse _ d0 da "created_at" (by decide) hok1]
    exact (hclean d0 hd0).1
  have hua : getField db "updated_at" = none := by
    rw [parseDoc_ok_other parse _ da db "updated_at" (by decide) hok2,
      parseDoc_ok_other parse _ d0 da "updated_at" (by decide) hok1]
    exact (hclean d0 hd0).2
  refine ⟨⟨d0, hd0, ?_⟩, ?_, ?_⟩
  · have h1 : keys (setField db "created_at" a) = keys db ++ ["created_at"] :=
      keys_setField_of_none db "created_at" a hca
    have h2 : getField (setField db "created_at" a) "updated_at" = none := by
      rw [getField_setField_ne db "updated_at" "created_at" a (by decide)]
      exact hua
    rw [hab, keys_setField_of_none _ "updated_at" b h2, h1,
      parseDoc_ok_keys parse _ da db hok2, parseDoc_ok_keys parse _ d0 da hok1]
    simp
  · obtain ⟨n, hn⟩ := parseDoc_ok_col parse "Date of Admission" d0 da hok1
    have hpres : getField db "Date of Admission" = some (Value.date n) := by
      rw [parseDoc_ok_other parse _ da db "Date of Admission" (by decide) hok2]
      exact hn
    rw [hab, getField_setField_ne _ _ _ _ (by decide),
      getField_setField_ne _ _ _ _ (by decide), hpres]
    rfl
  · obtain ⟨n, hn⟩ := parseDoc_ok_col parse "Discharge Date" da db hok2
    rw [hab, getField_setField_ne _ _ _ _ (by decide),
      getField_setField_ne _ _ _ _ (by decide), hn]
    rfl

/-- Witness for C4 at a concrete input: the first transformed document of
`goodTable` has exactly the source columns plus the two timestamps, and
both date fields are date-typed. -/
theorem transform_exact_columns_witness :
    transform natParse tickClock goodTable = .ok goodDocs
    ∧ (∀ d ∈ goodTable, getField d "created_at" = none
        ∧ getField d "updated_at" = none)
    ∧ ((∃ d ∈ goodTable,
          keys (goodDocs.get ⟨0, by decide⟩)
            = keys d ++ ["created_at", "updated_at"])
       ∧ isDateValue (getField (goodDocs.get ⟨0, by decide⟩) "Date of Admission") = true
       ∧ isDateValue (getField (goodDocs.get ⟨0, by decide⟩) "Discharge Date") = true) :=
  ⟨rfl, by decide,
   transform_exact_columns natParse tickClock goodTable goodDocs
     (goodDocs.get ⟨0, by decide⟩) rfl (by decide) (by decide)⟩

/-- C1 (counterexample). The demo stage does shrink the steady-state
data beyond its sentinel pair and the cleanup pass: on the well-formed
two-row table `goodTable` (whose rows all carry `Name` and `Age`, so the
cleanup pass removes nothing), the run completes, the post-insert count
is 2, yet the final check reports only 1 document — the diabetic record
received the temporary `status` field in the Update step and was then
removed by the `delete_many({"status": ...})` pass (lines 328-331), not
by the cleanup pass. -/
theorem demo_deletes_status_tagged_documents :
    (migrate_data natParse tickClock goodFs List.length []).completed = true
    ∧ (migrate_data natParse tickClock goodFs List.length []).cleanupDeleted = 0
    ∧ (migrate_data natParse tickClock goodFs List.length []).insertedCount = 2
    ∧ (migrate_data natParse tickClock goodFs List.length []).finalCount = 1 :=
  ⟨by rfl, by rfl, by rfl, by rfl⟩

/-- C1 (amended). For every successful run, the count reported at the
final check differs from the post-insert count exactly by the documents
removed in the status-delete pass (every document matching the Diabetes
update, tagged with the temporary `status` field) plus the documents
removed in the cleanup pass; the sentinel insert/delete pair and the
updates leave the count unchanged. -/
theorem demo_final_count_decomposition (parse : String → Option Nat)
    (clock : Nat → Nat) (fs : String → Option (List Doc))
    (report : List Doc → Nat) (initColl : List Doc)
    (h : (migrate_data parse clock fs report initColl).completed = true) :
    (migrate_data parse clock fs report initColl).finalCount
      + (migrate_data parse clock fs report initColl).statusDeleted
      + (migrate_data parse clock fs report initColl).cleanupDeleted
      = (migrate_data parse clock fs report initColl).insertedCount
    ∧ (migrate_data parse clock fs report initColl).sentinelDeleted = 1 := by
  unfold migrate_data at h ⊢
  cases hload : loadCsv fs with
  | error e =>
      simp only [hload, abortedRun] at h
      exact Bool.noConfusion h
  | ok df =>
      simp only [hload] at h ⊢
      cases htr : transform parse clock df with
      | error e =>
          simp only [htr, abortedRun] at h
          exact Bool.noConfusion h
      | ok docs =>
          simp only [htr] at h ⊢
          cases hlw : loaderWriter docs initColl with
          | mk coll1 res =>
              cases res with
              | error e =>
                  simp only [hlw, abortedRun] at h
                  exact Bool.noConfusion h
              | ok n =>
                  simp only [hlw] at h ⊢
                  cases hd : demoStage clock (2 * docs.length) coll1 with
                  | none =>
                      simp only [hd, abortedRun] at h
                      exact Bool.noConfusion h
                  | some out =>
                      simp only [hd] at h ⊢
                      obtain ⟨hname, hout⟩ :=
                        demoStage_some clock (2 * docs.length) coll1 out hd
                      subst hout
                      obtain ⟨hc, hs⟩ :=
                        demoCore_counts clock (2 * docs.length) coll1 hname
                      simp only [countDocuments_true]
                      exact ⟨hc, hs⟩

/-- Witness for C1 (amended) at a concrete successful run: on
`goodTable` the decomposition reads 1 + 1 + 0 = 2 with exactly one
sentinel deletion. -/
theorem demo_final_count_decomposition_witness :
    (migrate_data natParse tickClock goodFs List.length []).completed = true
    ∧ ((migrate_data natParse tickClock goodFs List.length []).finalCount
        + (migrate_data natParse tickClock goodFs List.length []).statusDeleted
        + (migrate_data natParse tickClock goodFs List.length []).cleanupDeleted
        = (migrate_data natParse tickClock goodFs List.length []).insertedCount
       ∧ (migrate_data natParse tickClock goodFs List.length []).sentinelDeleted = 1) :=
  ⟨by rfl, demo_final_count_decomposition natParse tickClock goodFs List.length [] (by rfl)⟩

/-- C5 (counterexample). The run does not detect a mismatch between the
reported insert count and the input length: with a store that reports 0
inserted ids for the two transformed documents, the run still completes
and is not treated as failed. -/
theorem insert_count_mismatch_not_detected :
    (migrate_data natParse tickClock goodFs (fun _ => 0) []).completed = true
    ∧ (migrate_data natParse tickClock goodFs (fun _ => 0) []).reportedInserted = 0
    ∧ (migrate_data natParse tickClock goodFs (fun _ => 0) []).insertedCount = 2
    ∧ (0 : Nat) ≠ 2 :=
  ⟨by rfl, by rfl, by rfl, by decide⟩

/-- C5 (amended). The bulk-insert step returns the count of inserted
documents and the script logs it, but never compares it with the input
length: the run's outcome is the same whatever count the store reports,
so a mismatch is neither detected nor treated as a failure. -/
theorem run_outcome_ignores_reported_count (report : List Doc → Nat) :
    (migrate_data natParse tickClock goodFs report []).completed = true
    ∧ (migrate_data natParse tickClock goodFs report []).finalColl
        = (migrate_data natParse tickClock goodFs List.length []).finalColl :=
  ⟨by rfl, by rfl⟩

/-- C6 (counterexample). The Loader has no fallback: on a file system
where the script's single hard-coded path is absent but the secondary
container-style path holds a table, the code fails with a
`FileNotFoundError`-kind error although the spec's resolution policy
(modelled by `resolvePathSpec`) would succeed through the fallback. -/
theorem loader_ignores_fallback_path :
    loadCsv (fun p => if p = "data/healthcare_dataset.csv"
        then some [[("Name", Value.str "A")]] else none)
      = .error "FileNotFoundError"
    ∧ resolvePathSpec none (fun p => if p = "data/healthcare_dataset.csv"
        then some [[("Name", Value.str "A")]] else none)
      = .ok [[("Name", Value.str "A")]] :=
  ⟨rfl, rfl⟩

/-- C6 (amended). The Loader reads the single fixed relative path
`"../data/healthcare_dataset.csv"`, with no override and no fallback;
when that one path does not resolve the run aborts fatally (no retry)
before any write to the store. -/
theorem loader_single_fixed_path (parse : String → Option Nat)
    (clock : Nat → Nat) (fs : String → Option (List Doc))
    (report : List Doc → Nat) (initColl : List Doc)
    (h : fs csvPath = none) :
    (migrate_data parse clock fs report initColl).completed = false
    ∧ (migrate_data parse clock fs report initColl).finalColl = initColl := by
  unfold migrate_data loadCsv
  simp only [h]
  exact ⟨rfl, rfl⟩

/-- Witness for C6 (amended): on the everywhere-empty file system the
run aborts and the prior collection contents survive untouched. -/
theorem loader_single_fixed_path_witness :
    ((fun _ : String => (none : Option (List Doc))) csvPath = none)
    ∧ ((migrate_data natParse tickClock (fun _ => none) List.length
          [goodRow1]).completed = false
       ∧ (migrate_data natParse tickClock (fun _ => none) List.length
            [goodRow1]).finalColl = [goodRow1]) :=
  ⟨rfl, loader_single_fixed_path natParse tickClock (fun _ => none)
    List.length [goodRow1] rfl⟩

/-- C7 (counterexample). The connection is not released on every exit
path: a run aborted at the Loader (missing file) ends with
`client.close()` never executed — the call sits at the end of the happy
path (line 358), not in any `finally` block. -/
theorem aborted_run_leaves_connection_open :
    (migrate_data natParse tickClock (fun _ => none) List.length []).completed = false
    ∧ (migrate_data natParse tickClock (fun _ => none) List.length []).closed = false :=
  ⟨by rfl, by rfl⟩

/-- C7 (amended). The connection handle is released exactly on the
successful completion path: on every run, `client.close()` has executed
iff the run completed; every aborted run leaves the connection open. -/
theorem connection_closed_iff_completed (parse : String → Option Nat)
    (clock : Nat → Nat) (fs : String → Option (List Doc))
    (report : List Doc → Nat) (initColl : List Doc) :
    (migrate_data parse clock fs report initColl).closed
      = (migrate_data parse clock fs report initColl).completed := by
  unfold migrate_data
  split
  · rfl
  · split
    · rfl
    · split
      · rfl
      · split <;> rfl

/-- C8 (counterexample). The sentinel insert/delete pair is not safe for
every state of the loaded collection: if the loaded data already holds a
document named `"Test Patient TO DELETE"`, `delete_one` removes that
pre-existing document (first in natural order) and the sentinel itself
survives, so a document with the sentinel name still exists afterwards. -/
theorem sentinel_name_collision :
    (sentinelStep tickClock 0
        [[("Name", Value.str "Test Patient TO DELETE"), ("Age", Value.int 5)]]).2 = 1
    ∧ (sentinelStep tickClock 0
        [[("Name", Value.str "Test Patient TO DELETE"), ("Age", Value.int 5)]]).1
      = [testPatient tickClock 0]
    ∧ countDocuments sentinelMatch
        (sentinelStep tickClock 0
          [[("Name", Value.str "Test Patient TO DELETE"), ("Age", Value.int 5)]]).1 = 1 :=
  ⟨by rfl, by rfl, by rfl⟩

/-- C8 (amended). The sentinel step always deletes exactly one document;
and provided the loaded collection holds no document whose `Name` equals
the sentinel name, afterwards no document with that name exists. -/
theorem sentinel_insert_delete_exact (clock : Nat → Nat) (k : Nat)
    (coll : List Doc) (h : ∀ d ∈ coll, sentinelMatch d = false) :
    (sentinelStep clock k coll).2 = 1
    ∧ countDocuments sentinelMatch (sentinelStep clock k coll).1 = 0 := by
  have hsplit := deleteOne_append_of_forall_not sentinelMatch coll
    [testPatient clock k] h
  have hone : deleteOne sentinelMatch [testPatient clock k] = ([], 1) := by
    simp [deleteOne, sentinelMatch_testPatient clock k]
  unfold sentinelStep
  rw [hsplit, hone]
  refine ⟨rfl, ?_⟩
  simp only [countDocuments, List.append_nil]
  rw [List.filter_eq_nil_iff.mpr (by intro d hd; simp [h d hd])]
  rfl

/-- Witness for C8 (amended): on a loaded collection holding only
`goodRow1` (whose name is not the sentinel name), exactly one document is
deleted and the sentinel is gone afterwards. -/
theorem sentinel_insert_delete_exact_witness :
    (∀ d ∈ [goodRow1], sentinelMatch d = false)
    ∧ ((sentinelStep tickClock 0 [goodRow1]).2 = 1
       ∧ countDocuments sentinelMatch (sentinelStep tickClock 0 [goodRow1]).1 = 0) :=
  ⟨by decide, sentinel_insert_delete_exact tickClock 0 [goodRow1] (by decide)⟩

/-- C9 (counterexample). The hospital update does not leave pre-existing
fields unchanged: on a document whose `Hospital` is `"General"`, the
demo's `update_many` rewrites that field to
`"General (Nom mis à jour)"`. -/
theorem hospital_update_rewrites_hospital :
    (hospitalUpdate (Value.str "General") 7
        [[("Name", Value.str "A"), ("Hospital", Value.str "General")]]).map
      (fun d => getField d "Hospital")
      = [some (Value.str "General (Nom mis à jour)")]
    ∧ getField [("Name", Value.str "A"), ("Hospital", Value.str "General")] "Hospital"
      = some (Value.str "General")
    ∧ (some (Value.str "General (Nom mis à jour)") : Option Value)
      ≠ some (Value.str "General") :=
  ⟨rfl, rfl, by decide⟩

/-- C9 (amended). The hospital update rewrites exactly the `Hospital`
field (appending `" (Nom mis à jour)"`) and refreshes `updated_at` on the
matching documents; every field other than those two is unchanged on
every document of the collection. -/
theorem hospital_update_frame (hname : Value) (t : Nat) (coll : List Doc)
    (key : String) (h1 : key ≠ "Hospital") (h2 : key ≠ "updated_at") :
    (hospitalUpdate hname t coll).map (fun d => getField d key)
      = coll.map (fun d => getField d key) := by
  unfold hospitalUpdate updateMany
  rw [List.map_map]
  apply List.map_congr_left
  intro d _
  by_cases hp : (getField d "Hospital" == some hname) = true
  · simp only [Function.comp, hp, if_pos]
    show getField (applySet _ d) key = getField d key
    simp only [applySet, List.foldl]
    rw [getField_setField_ne _ _ _ _ h2, getField_setField_ne _ _ _ _ h1]
  · simp only [Function.comp, hp]
    rw [if_neg (by simp [hp])]

/-- Witness for C9 (amended): the `Name` field of a hospital-updated
document is untouched. -/
theorem hospital_update_frame_witness :
    ("Name" ≠ "Hospital") ∧ ("Name" ≠ "updated_at")
    ∧ (hospitalUpdate (Value.str "General") 7
        [[("Name", Value.str "A"), ("Hospital", Value.str "General")]]).map
      (fun d => getField d "Name")
      = [[("Name", Value.str "A"), ("Hospital", Value.str "General")]].map
          (fun d => getField d "Name") :=
  ⟨by decide, by decide,
   hospital_update_frame (Value.str "General") 7
     [[("Name", Value.str "A"), ("Hospital", Value.str "General")]]
     "Name" (by decide) (by decide)⟩

/-- C10. On a source table with zero rows the pipeline does not
complete: the delete-all step still empties the target collection, and
pymongo's `insert_many` of the empty record sequence raises
(`InvalidOperation`), aborting the run and leaving the collection
empty — whatever the collection held before and whatever the parser,
clock and store report. -/
theorem empty_table_aborts_with_empty_collection (parse : String → Option Nat)
    (clock : Nat → Nat) (report : List Doc → Nat) (initColl : List Doc) :
    (migrate_data parse clock
        (fun p => if p = csvPath then some [] else none) report initColl).completed
      = false
    ∧ (migrate_data parse clock
        (fun p => if p = csvPath then some [] else none) report initColl).finalColl
      = [] := by
  have hlw : loaderWriter ([] : List Doc) initColl
      = ([], .error "InvalidOperation: documents must be a non-empty list") := by
    unfold loaderWriter insertMany
    rw [deleteMany_all]
    rfl
  have hload : loadCsv (fun p => if p = csvPath then some [] else none)
      = .ok ([] : List Doc) := rfl
  have htr : transform parse clock [] = .ok ([] : List Doc) := rfl
  unfold migrate_data
  refine ⟨?_, ?_⟩ <;> simp only [hload, htr, hlw, abortedRun]

end Migration
